import Mathlib

/-!
Verification development for the `pytest_opentelemetry_exporter` core:
the OTLP attribute/value data model (`types.py`, `models.py`) and the
business-HTTP-request extraction algorithm (`request_extractor.py`).

The embedding mirrors the Python source.  Python runtime values that may
be a string, an integer, a float, or `None` (the return type of
`get_attribute`) are modelled by `PyVal`; Python floats carry no
arithmetic anywhere in this code (values are only stored, compared to
strings, and tested for truthiness), so the double payload is modelled
by `ℚ`.  A `TypedDict` field accessed with `.get` may be absent at
runtime, so such fields are modelled with `Option`.  Python exceptions
escaping `extract_business_http_requests` are modelled with `Except`.
-/

/-- Runtime value returned by `get_attribute`: a Python string, int,
float, or `None`. -/
inductive PyVal : Type where
  | vStr (s : String)
  | vInt (i : Int)
  | vFloat (q : ℚ)
  | vNone
deriving DecidableEq

/-- Python truthiness of a `PyVal`: `""`, `0`, `0.0` and `None` are
falsy, everything else is truthy (this is what `if not http_method`
tests in the source). -/
def py_truthy : PyVal → Bool
  | .vStr s => !(s == "")
  | .vInt i => !(i == 0)
  | .vFloat q => decide (q ≠ 0)
  | .vNone => false

mutual
/-- The `AnyValue` TypedDict of `types.py`: all seven variant fields are
`NotRequired`, so each is an `Option` (`some` = key present).  The
`ArrayValue` and `KeyValueList` wrappers and `KeyValue` are mutually
recursive with it, exactly as in the source. -/
inductive AnyValue : Type where
  | mk (stringValue : Option String) (boolValue : Option Bool)
       (intValue : Option Int) (doubleValue : Option ℚ)
       (arrayValue : Option ArrayValue) (kvlistValue : Option KeyValueList)
       (bytesValue : Option String) : AnyValue

inductive ArrayValue : Type where
  | mk (values : List AnyValue) : ArrayValue

inductive KeyValueList : Type where
  | mk (values : List KeyValue) : KeyValueList

inductive KeyValue : Type where
  | mk (key : String) (value : AnyValue) : KeyValue
end

/-- Projection: presence and content of the `stringValue` key. -/
def AnyValue.stringValue : AnyValue → Option String
  | .mk s _ _ _ _ _ _ => s

/-- Projection: presence and content of the `boolValue` key. -/
def AnyValue.boolValue : AnyValue → Option Bool
  | .mk _ b _ _ _ _ _ => b

/-- Projection: presence and content of the `intValue` key. -/
def AnyValue.intValue : AnyValue → Option Int
  | .mk _ _ i _ _ _ _ => i

/-- Projection: presence and content of the `doubleValue` key. -/
def AnyValue.doubleValue : AnyValue → Option ℚ
  | .mk _ _ _ d _ _ _ => d

/-- Projection: the `key` field of a `KeyValue`. -/
def KeyValue.key : KeyValue → String
  | .mk k _ => k

/-- Projection: the `value` field of a `KeyValue`. -/
def KeyValue.value : KeyValue → AnyValue
  | .mk _ v => v

/-- An `AnyValue` with only the `stringValue` key present. -/
def strVal (s : String) : AnyValue := .mk (some s) none none none none none none

/-- An `AnyValue` with only the `boolValue` key present. -/
def boolVal (b : Bool) : AnyValue := .mk none (some b) none none none none none

/-- An `AnyValue` with only the `intValue` key present. -/
def intVal (i : Int) : AnyValue := .mk none none (some i) none none none none

/-- An `AnyValue` with only the `doubleValue` key present. -/
def doubleVal (q : ℚ) : AnyValue := .mk none none none (some q) none none none

/-- Embedding of `get_attribute` (request_extractor.py lines 6–20): scan
the attribute list in order; on a key match, return the string variant
if present, else the int variant, else the double variant; if a matching
entry has none of the three, fall through to the rest of the list (the
Python `if`/`elif` chain simply does not `return` in that case); return
`None` when the scan is exhausted. -/
def get_attribute : List KeyValue → String → PyVal
  | [], _ => .vNone
  | attr :: rest, key =>
    if attr.key = key then
      match attr.value.stringValue with
      | some s => .vStr s
      | none =>
        match attr.value.intValue with
        | some i => .vInt i
        | none =>
          match attr.value.doubleValue with
          | some d => .vFloat d
          | none => get_attribute rest key
    else get_attribute rest key

/-- The `Resource` TypedDict: `attributes` is declared required, but the
extractor reads it with `resource.get("attributes", {})`, so it is
modelled as optional (`none` = key absent at runtime). -/
structure Resource : Type where
  attributes : Option (List KeyValue)
  droppedAttributesCount : Option Int

/-- The `Span` TypedDict of `types.py`, restricted to the fields the
extractor reads.  Every field is read with `span.get(...)`, so each is
modelled as optional; `kind` is a `SpanKind` literal string at runtime. -/
structure Span : Type where
  traceId : Option String
  spanId : Option String
  parentSpanId : Option String
  name : Option String
  kind : Option String
  startTimeUnixNano : Option Int
  endTimeUnixNano : Option Int
  attributes : Option (List KeyValue)

/-- The `ScopeSpans` TypedDict, restricted to the fields the extractor
reads.  `spans` is declared required, but the extractor reads it with
`scope_span.get("spans")` (no default), so an absent key yields Python
`None`, which the `for` loop then fails to iterate. -/
structure ScopeSpans : Type where
  spans : Option (List Span)
  schemaUrl : Option String

/-- The `ResourceSpans` TypedDict (one batch).  `scopeSpans` is declared
required, but the extractor reads it with `batch.get("scopeSpans")` (no
default), so absence is representable. -/
structure ResourceSpans : Type where
  resource : Option Resource
  scopeSpans : Option (List ScopeSpans)
  schemaUrl : Option String

/-- The `BatchesData` TypedDict: the extractor indexes `data["batches"]`
directly, so the field is required. -/
structure BatchesData : Type where
  batches : List ResourceSpans

/-- The `BusinessHttpRequest` TypedDict built by the extractor.  Fields
filled from `span.get(...)` are `Option`; fields filled from
`get_attribute` results are `PyVal`. -/
structure BusinessHttpRequest : Type where
  trace_id : Option String
  span_id : Option String
  parent_span_id : Option String
  service_name : PyVal
  span_name : Option String
  kind : Option String
  start_time_unix_nano : Option Int
  end_time_unix_nano : Option Int
  http_method : PyVal
  http_url : PyVal
  http_status_code : PyVal
deriving DecidableEq

/-- The Python `TypeError` raised by `for x in None`. -/
def noneIterError : String := "TypeError: NoneType object is not iterable"

/-- The body of the innermost loop of `extract_business_http_requests`
(lines 60–100): given the `service_name` resolved for the batch and one
span, return `some` record if the span passes the `http.method`
truthiness gate and the `SPAN_KIND_SERVER` filter, `none` if the span is
skipped by `continue`. -/
def extractSpan (service_name : PyVal) (span : Span) : Option BusinessHttpRequest :=
  let span_attributes := span.attributes.getD []
  let http_method := get_attribute span_attributes "http.method"
  if !(py_truthy http_method) then none
  else
    let http_url := get_attribute span_attributes "http.url"
    let http_status_code := get_attribute span_attributes "http.status_code"
    let trace_id := span.traceId
    let span_id := span.spanId
    let parent_span_id := span.parentSpanId
    let name := span.name
    let kind := span.kind
    let start_time := span.startTimeUnixNano
    let end_time := span.endTimeUnixNano
    if kind ≠ some "SPAN_KIND_SERVER" then none
    else
      some {
        trace_id := trace_id
        span_id := span_id
        parent_span_id := parent_span_id
        service_name := service_name
        span_name := name
        kind := kind
        start_time_unix_nano := start_time
        end_time_unix_nano := end_time
        http_method := http_method
        http_url := http_url
        http_status_code := http_status_code }

/-- The `for scope_span in batch.get("scopeSpans")` body (lines 57–100):
`scope_span.get("spans")` has no default, so a missing `spans` key makes
the inner `for` raise a `TypeError`; otherwise every span is processed
in order. -/
def extractScopeSpan (service_name : PyVal) (scope_span : ScopeSpans) :
    Except String (List BusinessHttpRequest) :=
  match scope_span.spans with
  | none => .error noneIterError
  | some spans => .ok (spans.filterMap (extractSpan service_name))

/-- Sequential processing of a batch's scope spans, propagating the
first raised exception (which aborts the whole extraction in Python). -/
def extractScopes (service_name : PyVal) :
    List ScopeSpans → Except String (List BusinessHttpRequest)
  | [] => .ok []
  | ss :: rest => do
    let r ← extractScopeSpan service_name ss
    let rs ← extractScopes service_name rest
    return r ++ rs

/-- Processing of one batch (lines 45–100): resolve the resource
attributes with defaults (`batch.get("resource", {})`,
`resource.get("attributes", {})`), resolve `service.name`, skip the
batch entirely when it equals the string `"kong"`, then iterate
`batch.get("scopeSpans")` — which raises a `TypeError` when the key is
absent, since `.get` with no default returns `None`. -/
def extractBatch (batch : ResourceSpans) : Except String (List BusinessHttpRequest) :=
  let attributes : List KeyValue :=
    match batch.resource with
    | none => []
    | some resource => resource.attributes.getD []
  let service_name := get_attribute attributes "service.name"
  if service_name = .vStr "kong" then .ok []
  else
    match batch.scopeSpans with
    | none => .error noneIterError
    | some scope_spans => extractScopes service_name scope_spans

/-- Sequential processing of all batches, propagating the first raised
exception. -/
def extractBatches : List ResourceSpans → Except String (List BusinessHttpRequest)
  | [] => .ok []
  | b :: rest => do
    let r ← extractBatch b
    let rs ← extractBatches rest
    return r ++ rs

/-- Embedding of `extract_business_http_requests` (request_extractor.py
lines 37–102): a successful run returns the accumulated record list in
traversal order; a raised exception is an `Except.error`. -/
def extract_business_http_requests (data : BatchesData) :
    Except String (List BusinessHttpRequest) :=
  extractBatches data.batches

/-- A parsed-JSON value, as handed to the pydantic pre-validator of
`models.py` (the `values: dict[str, Any]` argument of `check_oneof`):
a JSON null becomes Python `None`. -/
inductive JsonVal : Type where
  | jNull
  | jBool (b : Bool)
  | jInt (n : Int)
  | jNum (q : ℚ)
  | jStr (s : String)
  | jArr (elems : List JsonVal)
  | jObj (fields : List (String × JsonVal))

/-- The raw input dict of a pydantic `AnyValue` construction
(`models.py`), restricted to the seven variant keys `check_oneof`
inspects: `none` = key absent, `some .jNull` = key present with `null`. -/
structure AnyValueInput : Type where
  stringValue : Option JsonVal
  boolValue : Option JsonVal
  intValue : Option JsonVal
  doubleValue : Option JsonVal
  arrayValue : Option JsonVal
  kvlistValue : Option JsonVal
  bytesValue : Option JsonVal

/-- Python `values.get(field) is not None`: false when the key is absent
and when it is present holding `None`. -/
def isSetJson : Option JsonVal → Bool
  | none => false
  | some .jNull => false
  | some _ => true

/-- Python `values.get(field)` for the seven variant field names of
`AnyValue.check_oneof`. -/
def getField (values : AnyValueInput) (f : String) : Option JsonVal :=
  if f = "stringValue" then values.stringValue
  else if f = "boolValue" then values.boolValue
  else if f = "intValue" then values.intValue
  else if f = "doubleValue" then values.doubleValue
  else if f = "arrayValue" then values.arrayValue
  else if f = "kvlistValue" then values.kvlistValue
  else if f = "bytesValue" then values.bytesValue
  else none

/-- The `fields` list of `AnyValue.check_oneof` (models.py lines 31–39). -/
def anyValueVariantFields : List String :=
  ["stringValue", "boolValue", "intValue", "doubleValue",
   "arrayValue", "kvlistValue", "bytesValue"]

/-- Embedding of `AnyValue.check_oneof` (models.py lines 29–43): collect
the variant field names whose value is not `None`; if more than one is
set, raise `ValueError("Only one of the fields in AnyValue can be set")`;
otherwise return the input values unchanged (construction proceeds). -/
def check_oneof (values : AnyValueInput) : Except String AnyValueInput :=
  let set_fields := anyValueVariantFields.filter (fun f => isSetJson (getField values f))
  if set_fields.length > 1 then
    .error "Only one of the fields in AnyValue can be set"
  else
    .ok values

/-- Number of populated (non-`None`) variant fields of a raw `AnyValue`
input, stated independently of `check_oneof`. -/
def populatedVariantCount (v : AnyValueInput) : Nat :=
  (isSetJson v.stringValue).toNat + (isSetJson v.boolValue).toNat +
  (isSetJson v.intValue).toNat + (isSetJson v.doubleValue).toNat +
  (isSetJson v.arrayValue).toNat + (isSetJson v.kvlistValue).toNat +
  (isSetJson v.bytesValue).toNat

/-- An `AnyValueInput` with every variant key absent (the "empty"
value). -/
def emptyAnyValueInput : AnyValueInput :=
  ⟨none, none, none, none, none, none, none⟩

/-- Attribute lookup as §4.2 of the spec words it: the FIRST entry whose
key matches decides the result; its value is decoded string-first, then
int, then double, and any other (or empty) value yields "not found"
without consulting later entries.  This definition follows the spec text
and is compared against `get_attribute`, which embeds the source. -/
def lookupAttributeSpec (attrs : List KeyValue) (key : String) : PyVal :=
  match attrs.find? (fun kv => kv.key == key) with
  | none => .vNone
  | some kv =>
    match kv.value.stringValue with
    | some s => .vStr s
    | none =>
      match kv.value.intValue with
      | some i => .vInt i
      | none =>
        match kv.value.doubleValue with
        | some d => .vFloat d
        | none => .vNone

/-- String-first, then int, then double decoding of a single attribute
value; `none` when none of the three variants is present. -/
def decodeStringIntDouble (v : AnyValue) : Option PyVal :=
  match v.stringValue with
  | some s => some (.vStr s)
  | none =>
    match v.intValue with
    | some i => some (.vInt i)
    | none =>
      match v.doubleValue with
      | some d => some (.vFloat d)
      | none => none

/-- Attribute lookup as the code actually behaves, stated independently
of the loop: the first entry whose key matches AND whose value decodes
under the string/int/double rule wins; matching entries that do not
decode are passed over and the scan continues. -/
def lookupFirstDecodable (attrs : List KeyValue) (key : String) : PyVal :=
  (attrs.findSome? fun kv =>
    if kv.key = key then decodeStringIntDouble kv.value else none).getD .vNone

/-- The resource attribute list the extractor resolves for a batch,
with the source's defaults for a missing resource or missing
attributes. -/
def batchAttributes (b : ResourceSpans) : List KeyValue :=
  match b.resource with
  | none => []
  | some resource => resource.attributes.getD []

/-- The `service.name` value the extractor resolves for a batch. -/
def batchServiceName (b : ResourceSpans) : PyVal :=
  get_attribute (batchAttributes b) "service.name"

/-- The records one batch contributes, written as a pure in-order
flatten: nothing for a `"kong"` batch, otherwise the in-order
concatenation over scope spans of the in-order filter over spans. -/
def orderedBatchRecords (b : ResourceSpans) : List BusinessHttpRequest :=
  if batchServiceName b = .vStr "kong" then []
  else
    (b.scopeSpans.getD []).flatMap fun ss =>
      (ss.spans.getD []).filterMap (extractSpan (batchServiceName b))

/-- The full output written as a pure in-order flatten over batches:
input batch order, then scope order, then span order, with no sorting
and no deduplication. -/
def orderedRecords (data : BatchesData) : List BusinessHttpRequest :=
  data.batches.flatMap orderedBatchRecords

/-- A `BatchesData` value in which every batch has its `scopeSpans` key
and every scope span has its `spans` key — the shapes on which the
extractor's un-defaulted `.get` calls cannot produce `None`. -/
def wellShaped (data : BatchesData) : Bool :=
  data.batches.all fun b =>
    match b.scopeSpans with
    | none => false
    | some l => l.all fun ss => ss.spans.isSome

theorem getField_stringValue (v : AnyValueInput) :
    getField v "stringValue" = v.stringValue := rfl

theorem getField_boolValue (v : AnyValueInput) :
    getField v "boolValue" = v.boolValue := rfl

theorem getField_intValue (v : AnyValueInput) :
    getField v "intValue" = v.intValue := rfl

theorem getField_doubleValue (v : AnyValueInput) :
    getField v "doubleValue" = v.doubleValue := rfl

theorem getField_arrayValue (v : AnyValueInput) :
    getField v "arrayValue" = v.arrayValue := rfl

theorem getField_kvlistValue (v : AnyValueInput) :
    getField v "kvlistValue" = v.kvlistValue := rfl

theorem getField_bytesValue (v : AnyValueInput) :
    getField v "bytesValue" = v.bytesValue := rfl

/-- The length of the `set_fields` list computed by `check_oneof` equals
the independently-stated count of populated variant fields. -/
theorem setFields_length (v : AnyValueInput) :
    (anyValueVariantFields.filter (fun f => isSetJson (getField v f))).length
      = populatedVariantCount v := by
  simp only [anyValueVariantFields, populatedVariantCount, List.filter,
    getField_stringValue, getField_boolValue, getField_intValue,
    getField_doubleValue, getField_arrayValue, getField_kvlistValue,
    getField_bytesValue]
  cases isSetJson v.stringValue <;>
    cases isSetJson v.boolValue <;>
      cases isSetJson v.intValue <;>
        cases isSetJson v.doubleValue <;>
          cases isSetJson v.arrayValue <;>
            cases isSetJson v.kvlistValue <;>
              cases isSetJson v.bytesValue <;>
                rfl

/-- A record emitted by the span loop always passed the kind filter and
the `http.method` truthiness gate; its `kind` and `http_method` fields
are the very values that were tested. -/
theorem extractSpan_some {service_name : PyVal} {span : Span}
    {r : BusinessHttpRequest} (h : extractSpan service_name span = some r) :
    r.kind = some "SPAN_KIND_SERVER" ∧ py_truthy r.http_method = true := by
  unfold extractSpan at h
  by_cases h1 :
      py_truthy (get_attribute (span.attributes.getD []) "http.method") = true
  · simp only [h1, Bool.not_true, Bool.false_eq_true, if_false] at h
    by_cases h2 : span.kind = some "SPAN_KIND_SERVER"
    · simp only [h2, ne_eq, not_true_eq_false, if_false, Option.some.injEq] at h
      subst h
      exact ⟨h2 ▸ rfl, by simpa using h1⟩
    · simp only [ne_eq, h2, not_false_eq_true, if_true] at h
      exact absurd h (by simp)
  · simp only [Bool.not_eq_true] at h1
    simp only [h1, Bool.not_false, if_true] at h
    exact absurd h (by simp)

/-- Sequencing two `Except` computations that succeeds must have both
parts succeed. -/
theorem exceptBindOk {ε α β : Type} {x : Except ε α} {f : α → Except ε β}
    {b : β} (h : x >>= f = .ok b) : ∃ a, x = .ok a ∧ f a = .ok b := by
  cases x with
  | error e => simp [Bind.bind, Except.bind] at h
  | ok a => exact ⟨a, rfl, by simpa [Bind.bind, Except.bind] using h⟩

/-- A successful scope-span iteration returns exactly the in-order
filter of its spans. -/
theorem extractScopeSpan_ok {service_name : PyVal} {ss : ScopeSpans}
    {out : List BusinessHttpRequest} (h : extractScopeSpan service_name ss = .ok out) :
    out = (ss.spans.getD []).filterMap (extractSpan service_name) := by
  unfold extractScopeSpan at h
  cases hs : ss.spans with
  | none => rw [hs] at h; exact absurd h (by simp)
  | some l =>
    rw [hs] at h
    simp only [Except.ok.injEq] at h
    simp [h.symm]

/-- A successful scope-span loop returns the in-order concatenation of
its scope spans' contributions. -/
theorem extractScopes_ok {service_name : PyVal} {l : List ScopeSpans}
    {out : List BusinessHttpRequest} (h : extractScopes service_name l = .ok out) :
    out = l.flatMap fun ss =>
      (ss.spans.getD []).filterMap (extractSpan service_name) := by
  induction l generalizing out with
  | nil =>
    simp only [extractScopes, Except.ok.injEq] at h
    simp [h.symm]
  | cons ss rest ih =>
    simp only [extractScopes] at h
    obtain ⟨a, ha, h2⟩ := exceptBindOk h
    obtain ⟨b, hb, h3⟩ := exceptBindOk h2
    simp only [pure, Except.pure, Except.ok.injEq] at h3
    rw [List.flatMap_cons, ← extractScopeSpan_ok ha, ← ih hb]
    exact h3.symm

/-- Unfolding of `extractBatch` through the named `batchServiceName`
abbreviation (definitionally equal to the inlined lets of the source
embedding). -/
theorem extractBatch_eq (b : ResourceSpans) :
    extractBatch b =
      if batchServiceName b = .vStr "kong" then .ok []
      else
        match b.scopeSpans with
        | none => .error noneIterError
        | some scope_spans => extractScopes (batchServiceName b) scope_spans := rfl

/-- A successful batch iteration returns exactly that batch's in-order
contribution. -/
theorem extractBatch_ok {b : ResourceSpans} {out : List BusinessHttpRequest}
    (h : extractBatch b = .ok out) : out = orderedBatchRecords b := by
  rw [extractBatch_eq] at h
  unfold orderedBatchRecords
  by_cases hk : batchServiceName b = .vStr "kong"
  · simp only [hk, if_true] at h ⊢
    simp only [Except.ok.injEq] at h
    exact h.symm
  · simp only [hk, if_false] at h ⊢
    cases hs : b.scopeSpans with
    | none => rw [hs] at h; exact absurd h (by simp)
    | some l =>
      rw [hs] at h
      simp [extractScopes_ok h]

/-- A successful batch loop returns the in-order concatenation of the
batches' contributions. -/
theorem extractBatches_ok {bs : List ResourceSpans}
    {out : List BusinessHttpRequest} (h : extractBatches bs = .ok out) :
    out = bs.flatMap orderedBatchRecords := by
  induction bs generalizing out with
  | nil =>
    simp only [extractBatches, Except.ok.injEq] at h
    simp [h.symm]
  | cons b rest ih =>
    simp only [extractBatches] at h
    obtain ⟨a, ha, h2⟩ := exceptBindOk h
    obtain ⟨c, hc, h3⟩ := exceptBindOk h2
    simp only [pure, Except.pure, Except.ok.injEq] at h3
    rw [List.flatMap_cons, ← extractBatch_ok ha, ← ih hc]
    exact h3.symm

/-- Whenever the extractor returns (does not raise), its result is the
pure in-order flatten `orderedRecords`. -/
theorem extract_ok_eq {data : BatchesData} {out : List BusinessHttpRequest}
    (h : extract_business_http_requests data = .ok out) :
    out = orderedRecords data :=
  extractBatches_ok h

/-- When every scope span in the list has its `spans` key, the scope
loop succeeds with the in-order flatten. -/
theorem extractScopes_allSome {service_name : PyVal} {l : List ScopeSpans}
    (h : ∀ ss ∈ l, ss.spans.isSome) :
    extractScopes service_name l =
      .ok (l.flatMap fun ss =>
        (ss.spans.getD []).filterMap (extractSpan service_name)) := by
  induction l with
  | nil => rfl
  | cons ss rest ih =>
    obtain ⟨sp, hsp⟩ := Option.isSome_iff_exists.mp (h ss (by simp))
    have hrest : ∀ x ∈ rest, x.spans.isSome := fun x hx => h x (by simp [hx])
    simp only [extractScopes, extractScopeSpan, hsp, ih hrest]
    simp [Bind.bind, Except.bind, pure, Except.pure, hsp]

/-- A batch whose `scopeSpans` key is present with all inner `spans`
keys present is processed without raising. -/
theorem extractBatch_shaped {b : ResourceSpans}
    (h : (match b.scopeSpans with
          | none => false
          | some l => l.all fun ss => ss.spans.isSome) = true) :
    extractBatch b = .ok (orderedBatchRecords b) := by
  rw [extractBatch_eq]
  unfold orderedBatchRecords
  by_cases hk : batchServiceName b = .vStr "kong"
  · simp [hk]
  · simp only [hk, if_false]
    cases hs : b.scopeSpans with
    | none => rw [hs] at h; exact absurd h (by simp)
    | some l =>
      rw [hs] at h
      simp only [List.all_eq_true] at h
      simp [extractScopes_allSome fun x hx => h x hx]

/-- A well-shaped batch list is processed without raising, yielding the
in-order flatten. -/
theorem extractBatches_shaped {bs : List ResourceSpans}
    (h : (bs.all fun b =>
          match b.scopeSpans with
          | none => false
          | some l => l.all fun ss => ss.spans.isSome) = true) :
    extractBatches bs = .ok (bs.flatMap orderedBatchRecords) := by
  induction bs with
  | nil => rfl
  | cons b rest ih =>
    simp only [List.all_cons, Bool.and_eq_true] at h
    simp only [extractBatches, extractBatch_shaped h.1, ih h.2]
    simp [Bind.bind, Except.bind, pure, Except.pure]

/-- A batch carrying neither a `resource` key nor a `scopeSpans` key:
its service name resolves to `None` (not `"kong"`), so the extractor
reaches `for scope_span in batch.get("scopeSpans")` with `None`. -/
def c1badBatch : ResourceSpans := ⟨none, none, none⟩

/-- C1 counterexample: the claim says a batch lacking `scopeSpans` is
treated as empty and skipped without raising; on this concrete input —
one batch with no `resource` and no `scopeSpans` key — the extractor
instead raises (`batch.get("scopeSpans")` has no default, so the `for`
loop iterates `None` and a `TypeError` propagates), refuting totality. -/
theorem C1_counterexample :
    extract_business_http_requests ⟨[c1badBatch]⟩ = .error noneIterError := rfl

/-- C1 as amended: the extractor is total on inputs missing a
`resource`, missing resource `attributes`, or whose spans lack expected
attributes — those are treated as empty and the well-formed remainder is
returned in order — but a (non-skipped) batch lacking `scopeSpans`, or a
scope span lacking `spans`, raises a `TypeError` instead of being
treated as empty.  Formally: whenever every batch has its `scopeSpans`
key and every scope span its `spans` key, extraction returns (no
exception) with the records of the remaining well-formed units. -/
theorem C1_partial_shapes_total (data : BatchesData) (h : wellShaped data = true) :
    extract_business_http_requests data = .ok (orderedRecords data) :=
  extractBatches_shaped h

/-- Concrete input for the C1 witness: a batch with no `resource`, a
scope span whose single span has no `attributes` and one whose span is
well-formed: extraction returns without raising. -/
def c1data : BatchesData :=
  ⟨[⟨none,
     some [⟨some [⟨none, none, none, none, some "SPAN_KIND_SERVER",
                   none, none, none⟩], none⟩],
     none⟩,
    ⟨some ⟨none, none⟩,
     some [⟨some [⟨some "t", some "s", none, some "n", some "SPAN_KIND_SERVER",
                   some 1, some 2,
                   some [.mk "http.method" (strVal "GET")]⟩], none⟩],
     none⟩]⟩

theorem C1_witness :
    wellShaped c1data = true ∧
      extract_business_http_requests c1data = .ok (orderedRecords c1data) :=
  ⟨rfl, C1_partial_shapes_total c1data rfl⟩

/-- Attribute list whose first `"k"` entry holds only a boolean variant
and whose second `"k"` entry holds a string variant. -/
def c2attrs : List KeyValue := [.mk "k" (boolVal true), .mk "k" (strVal "x")]

/-- C2 counterexample: the claim says the FIRST entry whose key matches
decides the lookup, and a first match holding a non-coercible variant
(here a boolean) yields `None` with later same-key entries never
consulted.  On `c2attrs` the code instead falls through (the `if`/`elif`
chain does not `return` when none of the three variants is present) and
returns the second entry's string, while the spec-worded lookup
(`lookupAttributeSpec`) yields `None`. -/
theorem C2_counterexample :
    get_attribute c2attrs "k" = .vStr "x" ∧
      lookupAttributeSpec c2attrs "k" = .vNone := ⟨rfl, rfl⟩

/-- C2 as amended: `get_attribute` scans in order and is decided by the
first entry whose key matches AND whose value has one of the
string/int/double variants (in that priority); a matching entry with
none of these three variants is passed over and later entries — also
with the same key — are consulted; if no entry qualifies the result is
`None`. -/
theorem C2_first_decodable_wins (attrs : List KeyValue) (key : String) :
    get_attribute attrs key = lookupFirstDecodable attrs key := by
  induction attrs with
  | nil => rfl
  | cons attr rest ih =>
    unfold get_attribute lookupFirstDecodable
    rw [List.findSome?_cons]
    by_cases hk : attr.key = key
    · rw [if_pos hk, if_pos hk]
      cases hs : attr.value.stringValue with
      | some s => simp [decodeStringIntDouble, hs]
      | none =>
        cases hi : attr.value.intValue with
        | some i => simp [decodeStringIntDouble, hs, hi]
        | none =>
          cases hd : attr.value.doubleValue with
          | some d => simp [decodeStringIntDouble, hs, hi, hd]
          | none =>
            have hdec : decodeStringIntDouble attr.value = none := by
              simp [decodeStringIntDouble, hs, hi, hd]
            rw [hdec]
            exact ih
    · rw [if_neg hk, if_neg hk]
      exact ih

/-- Raw `AnyValue` input with the string and int variants populated. -/
def c3conflictA : AnyValueInput :=
  ⟨some (.jStr "x"), none, some (.jInt 1), none, none, none, none⟩

/-- Raw `AnyValue` input with the bool and double variants populated. -/
def c3conflictB : AnyValueInput :=
  ⟨none, some (.jBool true), none, some (.jNum 1), none, none, none⟩

/-- C3 counterexample: the claim says a multi-variant construction fails
with an error NAMING the conflicting fields.  Construction does fail,
but with the one fixed message
`"Only one of the fields in AnyValue can be set"`: the
string-plus-int conflict and the bool-plus-double conflict produce the
identical error value, so the error cannot and does not name which
fields conflict. -/
theorem C3_counterexample :
    check_oneof c3conflictA =
        .error "Only one of the fields in AnyValue can be set" ∧
      check_oneof c3conflictB =
        .error "Only one of the fields in AnyValue can be set" := ⟨rfl, rfl⟩

/-- C3 as amended: if two or more of the seven variant fields are
populated, construction fails with a `ValueError` carrying the fixed
message `"Only one of the fields in AnyValue can be set"` (which does
not name the conflicting fields); if exactly one or zero variants are
populated, construction succeeds, the zero-variant case denoting an
explicitly "empty" value rather than an error. -/
theorem C3_oneof_invariant (v : AnyValueInput) :
    (1 < populatedVariantCount v →
      check_oneof v = .error "Only one of the fields in AnyValue can be set") ∧
    (populatedVariantCount v ≤ 1 → check_oneof v = .ok v) := by
  simp only [check_oneof, setFields_length]
  constructor
  · intro h
    rw [if_pos h]
  · intro h
    rw [if_neg (by omega)]

/-- Input for the C3 witness with only the double variant populated. -/
def c3single : AnyValueInput :=
  ⟨none, none, none, some (.jNum 3), none, none, none⟩

theorem C3_witness :
    (1 < populatedVariantCount c3conflictA ∧
      check_oneof c3conflictA =
        .error "Only one of the fields in AnyValue can be set") ∧
    (populatedVariantCount c3single ≤ 1 ∧ check_oneof c3single = .ok c3single) ∧
    (populatedVariantCount emptyAnyValueInput ≤ 1 ∧
      check_oneof emptyAnyValueInput = .ok emptyAnyValueInput) :=
  ⟨⟨by decide, (C3_oneof_invariant c3conflictA).1 (by decide)⟩,
   ⟨by decide, (C3_oneof_invariant c3single).2 (by decide)⟩,
   ⟨by decide, (C3_oneof_invariant emptyAnyValueInput).2 (by decide)⟩⟩

/-- Removing a batch whose processing contributes `.ok []` from the
batch list leaves the overall result unchanged. -/
theorem extractBatches_skip_middle (pre post : List ResourceSpans)
    (bm : ResourceSpans) (hb : extractBatch bm = .ok []) :
    extractBatches (pre ++ bm :: post) = extractBatches (pre ++ post) := by
  induction pre with
  | nil =>
    simp only [List.nil_append, extractBatches, hb]
    cases hrest : extractBatches post <;>
      simp [hrest, Bind.bind, Except.bind, pure, Except.pure]
  | cons p pre ih =>
    simp only [List.cons_append, extractBatches, List.append_eq, ih]

/-- C4: a batch whose resource attributes resolve `service.name` to the
exact string `"kong"` contributes zero records regardless of its spans;
inserting or removing such a batch anywhere leaves the extraction of the
remaining batches unchanged, so all other batches are still processed. -/
theorem C4_kong_skip (pre post : List ResourceSpans) (b : ResourceSpans)
    (h : batchServiceName b = .vStr "kong") :
    extract_business_http_requests ⟨pre ++ b :: post⟩ =
      extract_business_http_requests ⟨pre ++ post⟩ := by
  have hb : extractBatch b = .ok [] := by
    rw [extractBatch_eq, if_pos h]
  exact extractBatches_skip_middle pre post b hb

/-- A `"kong"` batch containing a server span with `http.method` set. -/
def c4kong : ResourceSpans :=
  ⟨some ⟨some [.mk "service.name" (strVal "kong")], none⟩,
   some [⟨some [⟨some "t", some "s", none, some "n", some "SPAN_KIND_SERVER",
                 some 1, some 2, some [.mk "http.method" (strVal "GET")]⟩],
          none⟩],
   none⟩

/-- A non-kong batch with one matching span. -/
def c4other : ResourceSpans :=
  ⟨some ⟨some [.mk "service.name" (strVal "checkout")], none⟩,
   some [⟨some [⟨some "t2", some "s2", none, some "n2", some "SPAN_KIND_SERVER",
                 some 3, some 4, some [.mk "http.method" (strVal "POST")]⟩],
          none⟩],
   none⟩

theorem C4_witness :
    batchServiceName c4kong = .vStr "kong" ∧
      extract_business_http_requests ⟨[c4other] ++ c4kong :: []⟩ =
        extract_business_http_requests ⟨[c4other] ++ []⟩ :=
  ⟨rfl, C4_kong_skip [c4other] [] c4kong rfl⟩

/-- C5: the span loop emits a record exactly when the span's `kind`
field is the literal tag `"SPAN_KIND_SERVER"` and the `http.method`
attribute resolves to a truthy value; a span with any other kind (or no
kind), whatever its attributes, yields nothing. -/
theorem C5_kind_filter (service_name : PyVal) (span : Span) :
    (extractSpan service_name span).isSome = true ↔
      (span.kind = some "SPAN_KIND_SERVER" ∧
        py_truthy (get_attribute (span.attributes.getD []) "http.method")
          = true) := by
  unfold extractSpan
  by_cases h1 :
      py_truthy (get_attribute (span.attributes.getD []) "http.method") = true
  · by_cases h2 : span.kind = some "SPAN_KIND_SERVER"
    · simp [h1, h2]
    · simp [h1, h2]
  · simp only [Bool.not_eq_true] at h1
    simp [h1]

/-- A server span with a valid `http.method` attribute. -/
def c5span : Span :=
  ⟨some "tid", some "sid", none, some "GET /x", some "SPAN_KIND_SERVER",
   some 5, some 6, some [.mk "http.method" (strVal "GET")]⟩

/-- An otherwise-identical span with `kind = SPAN_KIND_CLIENT`. -/
def c5client : Span :=
  ⟨some "tid", some "sid", none, some "GET /x", some "SPAN_KIND_CLIENT",
   some 5, some 6, some [.mk "http.method" (strVal "GET")]⟩

theorem C5_witness :
    (extractSpan (PyVal.vStr "svc") c5span).isSome = true ∧
      ¬(extractSpan (PyVal.vStr "svc") c5client).isSome = true :=
  ⟨(C5_kind_filter (PyVal.vStr "svc") c5span).mpr ⟨rfl, rfl⟩,
   fun hc => by
     have := ((C5_kind_filter (PyVal.vStr "svc") c5client).mp hc).1
     simp [c5client] at this⟩

/-- C6: a span whose `http.method` attribute lookup yields no value or
the empty string is skipped by the extractor regardless of its kind. -/
theorem C6_method_absent_or_empty (service_name : PyVal) (span : Span)
    (h : get_attribute (span.attributes.getD []) "http.method" = .vNone ∨
         get_attribute (span.attributes.getD []) "http.method" = .vStr "") :
    extractSpan service_name span = none := by
  have hf : py_truthy
      (get_attribute (span.attributes.getD []) "http.method") = false := by
    rcases h with h | h <;> rw [h] <;> rfl
  unfold extractSpan
  simp [hf]

/-- A server span with no attributes at all: `http.method` is absent. -/
def c6span : Span :=
  ⟨some "tid6", some "sid6", none, some "db query", some "SPAN_KIND_SERVER",
   some 7, some 8, none⟩

theorem C6_witness :
    (get_attribute (c6span.attributes.getD []) "http.method" = PyVal.vNone ∨
      get_attribute (c6span.attributes.getD []) "http.method" = PyVal.vStr "")
    ∧ extractSpan (PyVal.vStr "svc") c6span = none :=
  ⟨Or.inl rfl, C6_method_absent_or_empty (PyVal.vStr "svc") c6span (Or.inl rfl)⟩

/-- C7: whenever the extractor returns, its output lists the emitted
records in exactly the input traversal order — batch order, then scope
order within a batch, then span order within a scope — namely the pure
in-order flatten `orderedRecords`, which performs no sorting and no
deduplication; and extraction of `batches = []` returns the empty
sequence. -/
theorem C7_order_preserving (data : BatchesData)
    (out : List BusinessHttpRequest)
    (h : extract_business_http_requests data = .ok out) :
    out = orderedRecords data ∧
      extract_business_http_requests ⟨[]⟩ = .ok [] :=
  ⟨extract_ok_eq h, rfl⟩

/-- Two batches, the second with two scopes, contributing three matching
spans overall (plus one skipped client span in the middle). -/
def c7data : BatchesData :=
  ⟨[⟨some ⟨some [.mk "service.name" (strVal "a")], none⟩,
     some [⟨some [⟨some "t1", some "s1", none, some "n1",
                   some "SPAN_KIND_SERVER", some 1, some 2,
                   some [.mk "http.method" (strVal "GET")]⟩,
                  ⟨some "t1", some "s2", none, some "n2",
                   some "SPAN_KIND_CLIENT", some 3, some 4,
                   some [.mk "http.method" (strVal "GET")]⟩], none⟩],
     none⟩,
    ⟨some ⟨some [.mk "service.name" (strVal "b")], none⟩,
     some [⟨some [⟨some "t2", some "s3", none, some "n3",
                   some "SPAN_KIND_SERVER", some 5, some 6,
                   some [.mk "http.method" (strVal "PUT")]⟩], none⟩,
           ⟨some [⟨some "t2", some "s4", none, some "n4",
                   some "SPAN_KIND_SERVER", some 7, some 8,
                   some [.mk "http.method" (strVal "DELETE")]⟩], none⟩],
     none⟩]⟩

/-- The three records `c7data` must produce, in traversal order. -/
def c7expected : List BusinessHttpRequest :=
  [⟨some "t1", some "s1", none, .vStr "a", some "n1",
    some "SPAN_KIND_SERVER", some 1, some 2, .vStr "GET", .vNone, .vNone⟩,
   ⟨some "t2", some "s3", none, .vStr "b", some "n3",
    some "SPAN_KIND_SERVER", some 5, some 6, .vStr "PUT", .vNone, .vNone⟩,
   ⟨some "t2", some "s4", none, .vStr "b", some "n4",
    some "SPAN_KIND_SERVER", some 7, some 8, .vStr "DELETE", .vNone, .vNone⟩]

theorem C7_witness :
    extract_business_http_requests c7data = .ok c7expected ∧
      (c7expected = orderedRecords c7data ∧
        extract_business_http_requests ⟨[]⟩ = .ok []) :=
  ⟨rfl, C7_order_preserving c7data c7expected rfl⟩

/-- The checkout batch of C8: one scope, one span named "POST /pay" with
kind `SPAN_KIND_SERVER`, timestamps 100 and 150 and attributes
`http.method = "POST"`, `http.url = "/pay"`, `http.status_code = 200`
(int-typed). -/
def c8batch : ResourceSpans :=
  ⟨some ⟨some [.mk "service.name" (strVal "checkout")], none⟩,
   some [⟨some [⟨some "0123", some "abcd", some "9999", some "POST /pay",
                 some "SPAN_KIND_SERVER", some 100, some 150,
                 some [.mk "http.method" (strVal "POST"),
                       .mk "http.url" (strVal "/pay"),
                       .mk "http.status_code" (intVal 200)]⟩], none⟩],
   none⟩

/-- C8: on the concrete checkout input the extractor returns exactly one
record with `serviceName "checkout"`, `spanName "POST /pay"`,
`httpMethod "POST"`, `httpUrl "/pay"`, `httpStatusCode` the integer 200,
`startTimeUnixNano 100`, `endTimeUnixNano 150`, and the span's
`traceId`, `spanId` and `parentSpanId` copied through. -/
theorem C8_checkout_example :
    extract_business_http_requests ⟨[c8batch]⟩ =
      .ok [⟨some "0123", some "abcd", some "9999", .vStr "checkout",
            some "POST /pay", some "SPAN_KIND_SERVER", some 100, some 150,
            .vStr "POST", .vStr "/pay", .vInt 200⟩] := rfl

/-- C9: every record the extractor returns carries
`kind = "SPAN_KIND_SERVER"` and a truthy (non-empty) `http_method`
value, on every input on which the function returns. -/
theorem C9_output_invariant (data : BatchesData)
    (out : List BusinessHttpRequest) (r : BusinessHttpRequest)
    (hok : extract_business_http_requests data = .ok out) (hr : r ∈ out) :
    r.kind = some "SPAN_KIND_SERVER" ∧ py_truthy r.http_method = true := by
  rw [extract_ok_eq hok] at hr
  unfold orderedRecords at hr
  rw [List.mem_flatMap] at hr
  obtain ⟨b, _, hb⟩ := hr
  unfold orderedBatchRecords at hb
  by_cases hk : batchServiceName b = .vStr "kong"
  · rw [if_pos hk] at hb
    exact absurd hb (List.not_mem_nil r)
  · rw [if_neg hk] at hb
    rw [List.mem_flatMap] at hb
    obtain ⟨ss, _, hss⟩ := hb
    rw [List.mem_filterMap] at hss
    obtain ⟨sp, _, hsp⟩ := hss
    exact extractSpan_some hsp

/-- The single record `⟨[c4other]⟩` produces. -/
def c9record : BusinessHttpRequest :=
  ⟨some "t2", some "s2", none, .vStr "checkout", some "n2",
   some "SPAN_KIND_SERVER", some 3, some 4, .vStr "POST", .vNone, .vNone⟩

theorem C9_witness :
    extract_business_http_requests ⟨[c4other]⟩ = .ok [c9record] ∧
      c9record ∈ [c9record] ∧
      (c9record.kind = some "SPAN_KIND_SERVER" ∧
        py_truthy c9record.http_method = true) :=
  ⟨rfl, List.mem_singleton.mpr rfl,
   C9_output_invariant ⟨[c4other]⟩ [c9record] c9record rfl
     (List.mem_singleton.mpr rfl)⟩

/-- C10: a span whose `http.method` lookup yields a falsy non-absent
value — the empty string, the integer 0, or the float 0.0 (int- and
double-typed attributes being coerced by the lookup) — is skipped
exactly as if the attribute were absent, because line 65 tests Python
truthiness rather than presence. -/
theorem C10_falsy_method_skipped (service_name : PyVal) (span : Span)
    (h : get_attribute (span.attributes.getD []) "http.method" = .vStr "" ∨
         get_attribute (span.attributes.getD []) "http.method" = .vInt 0 ∨
         get_attribute (span.attributes.getD []) "http.method" = .vFloat 0) :
    extractSpan service_name span = none := by
  have hf : py_truthy
      (get_attribute (span.attributes.getD []) "http.method") = false := by
    rcases h with h | h | h <;> rw [h] <;> rfl
  unfold extractSpan
  simp [hf]

/-- A server span whose `http.method` attribute is the integer 0. -/
def c10span : Span :=
  ⟨some "tz", some "sz", none, some "nz", some "SPAN_KIND_SERVER",
   some 9, some 10, some [.mk "http.method" (intVal 0)]⟩

theorem C10_witness :
    get_attribute (c10span.attributes.getD []) "http.method" = PyVal.vInt 0 ∧
      extractSpan (PyVal.vStr "svc") c10span = none :=
  ⟨rfl, C10_falsy_method_skipped (PyVal.vStr "svc") c10span (Or.inr (Or.inl rfl))⟩
